import Mathlib

/-!
Verification development for the dyfn e-commerce backend (`src/main.py`).

The service is a FastAPI app over a MongoDB-style document store.  We give a
shallow embedding of the route handlers `list_products`, `create_product`,
`create_order`, `seed_products` and `test_database`, together with the
document/store data model they operate on.  The repository's `database.py`
and `schemas.py` modules are not part of the sources; the store adapter
operations they provide (`create_document`, `get_documents`, and the pymongo
handle `db`) are modelled from the specification's Document Store Adapter
contract (spec section 4.1) and Query Filter semantics (spec section 3).
-/

namespace Dyfn

/-- A JSON-style field value as stored and served by this service.  The
documents this backend creates and reads hold text, decimal numbers
(represented exactly as rationals), booleans, lists of text labels (the
`sizes` field), and store-native object identifiers (modelled as naturals,
rendered as text by `str`). -/
inductive Value where
  | vStr (s : String)
  | vNum (q : ℚ)
  | vBool (b : Bool)
  | vStrList (l : List String)
  | vId (n : Nat)
  deriving DecidableEq, Repr

/-- Python `str` applied to a field value; for a store identifier this is the
text rendering of the identifier (`str(p.pop("_id"))` in `list_products`). -/
def pyStr : Value → String
  | .vStr s => s
  | .vNum q => toString q
  | .vBool true => "True"
  | .vBool false => "False"
  | .vStrList l => toString l
  | .vId n => toString n

/-- A document: a Python dict from field names to values, modelled as an
association list (insertion order preserved, keys unique in practice). -/
def Doc := List (String × Value)

instance : DecidableEq Doc := by unfold Doc; infer_instance

instance : Repr Doc := by unfold Doc; infer_instance

/-- Python `p[k]` / `k in p`: first binding of `k`, if any. -/
def Doc.get : Doc → String → Option Value
  | [], _ => none
  | (k, v) :: rest, key => if k = key then some v else Doc.get rest key

/-- Python `p.pop(k)`'s effect on the dict: remove the binding of `k`. -/
def Doc.erase : Doc → String → Doc
  | [], _ => []
  | (k, v) :: rest, key =>
      if k = key then Doc.erase rest key else (k, v) :: Doc.erase rest key

/-- Python `p[k] = v`: overwrite the binding in place, or append a new one. -/
def Doc.set : Doc → String → Value → Doc
  | [], key, v => [(key, v)]
  | (k, w) :: rest, key, v =>
      if k = key then (k, v) :: rest else (k, w) :: Doc.set rest key v

/-! ## Case-insensitive substring matching

`list_products` sends the search text to the store as a case-insensitive
match against `title` and `description` (spec section 3's Query Filter:
"case-insensitive substring match against title and description"). -/

/-- Whether `needle` occurs as a contiguous sublist of `hay`. -/
def listSubstr (needle hay : List Char) : Bool :=
  match hay with
  | [] => needle.isEmpty
  | _ :: t => needle.isPrefixOf hay || listSubstr needle t

/-- Whether `needle` occurs case-insensitively as a substring of `hay`
(both sides lowered, as Python `.lower()` / the regex `i` option do). -/
def strContainsCI (needle hay : String) : Bool :=
  listSubstr (needle.data.map Char.toLower) (hay.data.map Char.toLower)

/-! ## The document store

`main.py` imports a pymongo database handle `db` and the adapter functions
`create_document` / `get_documents` from the repository's `database` module,
which is not among the sources.  The store is therefore modelled from the
specification: a named family of collections of documents, each insert
assigning a fresh identifier (spec: "every persisted Product and Order has a
store-assigned unique identifier"), with a `failure` field standing for an
unreachable or erroring store ("fails with a StoreError if the store is
unreachable or write is rejected"). -/

/-- Modelled from the spec: the document database behind the missing
`database` module.  `failure` set means every store round-trip raises that
message; `dbName` models the pymongo `db.name` attribute (absent when the
handle lacks it); `nextId` is the source of fresh store-assigned
identifiers; `colls` maps collection names to their documents in
store-native order. -/
structure Store where
  failure : Option String
  dbName : Option String
  nextId : Nat
  colls : List (String × List Doc)
  deriving DecidableEq, Repr

/-- The documents of a named collection (empty when it does not exist). -/
def Store.getColl (st : Store) (name : String) : List Doc :=
  getCollAux st.colls name
where
  getCollAux : List (String × List Doc) → String → List Doc
  | [], _ => []
  | (n, ds) :: rest, name => if n = name then ds else getCollAux rest name

/-- Replace (or create) a named collection. -/
def Store.setColl (st : Store) (name : String) (docs : List Doc) : Store :=
  { st with colls := setCollAux st.colls name docs }
where
  setCollAux : List (String × List Doc) → String → List Doc → List (String × List Doc)
  | [], name, docs => [(name, docs)]
  | (n, ds) :: rest, name, docs =>
      if n = name then (n, docs) :: rest else (n, ds) :: setCollAux rest name docs

/-- The record `d` prefixed with a store-assigned identifier `_id`. -/
def withId (n : Nat) (d : Doc) : Doc := ("_id", Value.vId n) :: d

/-- Modelled from the spec: `insert_one` of the external store client —
appends the record with a fresh store-assigned `_id`. -/
def Store.insertOne (st : Store) (name : String) (d : Doc) : Store :=
  { st.setColl name (st.getColl name ++ [withId st.nextId d]) with
    nextId := st.nextId + 1 }

/-- Modelled from the spec: `count_documents({})` of the external store
client — the number of documents in the collection. -/
def Store.countDocuments (st : Store) (name : String) : Nat :=
  (st.getColl name).length

/-! ## The query filter built by `list_products`

`list_products` (main.py lines 69-77) builds a MongoDB filter dict `query`:
starting from `{}`, a truthy `category` adds an exact-equality constraint
`query["category"] = category`, and a truthy `search` adds
`query["$or"] = [{"title": {"$regex": search, "$options": "i"}},
{"description": {"$regex": search, "$options": "i"}}]`.  Exactly the filters
of this shape arise, so the filter is embedded as a record of the two
optional constraints. -/

/-- The store filter dict built by `list_products`: an optional exact-match
`category` constraint and an optional `$or` pair of case-insensitive
constraints over `title` and `description` sharing one search text. -/
structure MongoFilter where
  category : Option String
  searchOr : Option String
  deriving DecidableEq, Repr

/-- Python truthiness of an optional string parameter (`if category:` /
`if search:`): `None` and the empty string are falsy. -/
def optTruthy : Option String → Option String
  | none => none
  | some s => if s = "" then none else some s

/-- The filter `list_products` builds from its `category` and `search`
query parameters (main.py lines 69-77). -/
def buildQuery (category search : Option String) : MongoFilter :=
  { category := optTruthy category, searchOr := optTruthy search }

/-- Whether document field `k` is a string matched case-insensitively by the
search text (a missing or non-string field never matches). -/
def fieldMatchesCI (d : Doc) (k : String) (search : String) : Bool :=
  match d.get k with
  | some (Value.vStr t) => strContainsCI search t
  | _ => false

/-- Modelled from the spec: the store's evaluation of the filter built by
`list_products`.  Spec section 3 (Query Filter): "case-insensitive substring
match against title and description when search is present; exact match
against category when present"; both constraints apply conjunctively and the
search constraint is the `$or` disjunction over `title` and `description`. -/
def matchesFilter (q : MongoFilter) (d : Doc) : Bool :=
  (match q.category with
   | none => true
   | some c => d.get "category" == some (Value.vStr c))
  &&
  (match q.searchOr with
   | none => true
   | some s => fieldMatchesCI d "title" s || fieldMatchesCI d "description" s)

/-- Modelled from the spec: `database.get_documents(collectionName, filter,
limit)` — "returns up to `limit` matching records in store-native order"
(spec section 4.1). -/
def get_documents (st : Store) (name : String) (q : MongoFilter) (limit : Nat) :
    List Doc :=
  ((st.getColl name).filter (matchesFilter q)).take limit

/-! ## Route handlers

Handlers are embedded as pure functions over the optional store handle
`db : Option Store` (`db is None` when the store was never initialized).
A raised `HTTPException(status_code, detail)` is the `Except.error` case. -/

/-- A FastAPI `HTTPException` with its status code and detail message. -/
structure HTTPError where
  status : Nat
  detail : String
  deriving DecidableEq, Repr

/-- The `_id`-to-`id` conversion `list_products` applies to each document
(main.py lines 80-82): when an `_id` field is present it is removed and a
text field `id` holding `str` of its value is written. -/
def convertDoc (p : Doc) : Doc :=
  match p.get "_id" with
  | some v => (p.erase "_id").set "id" (Value.vStr (pyStr v))
  | none => p

/-- Handler for `GET /api/products` (main.py lines 65-83): raises 500 when the store
handle is absent; otherwise builds the filter from `category` and `search`,
fetches up to `limit` matching product documents, and converts each
document's `_id` to a text `id`. -/
def list_products (db : Option Store) (category search : Option String)
    (limit : Nat) : Except HTTPError (List Doc) :=
  match db with
  | none => .error ⟨500, "Database not configured"⟩
  | some st =>
      let query := buildQuery category search
      let products := get_documents st "product" query limit
      .ok (products.map convertDoc)

/-- The FastAPI default of the `limit` query parameter (main.py line 66). -/
def limitDefault : Nat := 100

/-- Handler for `GET /api/products` with `limit` absent: the default 100 applies. -/
def list_productsNoLimit (db : Option Store) (category search : Option String) :
    Except HTTPError (List Doc) :=
  list_products db category search limitDefault

/-- Modelled from the spec: `database.create_document(collectionName,
record)` — "inserts a record into the named collection and returns its
assigned identifier as text; fails with a StoreError if the store is
unreachable or write is rejected" (spec section 4.1).  A call through an
absent handle or against a failing store raises. -/
def create_document (db : Option Store) (name : String) (d : Doc) :
    Except String (Store × String) :=
  match db with
  | none => .error "database handle is not initialized"
  | some st =>
      match st.failure with
      | some msg => .error msg
      | none => .ok (st.insertOne name d, toString st.nextId)

/-- Handler for `POST /api/products` (main.py lines 85-91): inserts the validated product
and answers `{"id": inserted_id}`; any store exception becomes HTTP 500 with
the exception's message. -/
def create_product (db : Option Store) (product : Doc) :
    Except HTTPError (Store × Doc) :=
  match create_document db "product" product with
  | .ok (st, inserted_id) => .ok (st, [("id", Value.vStr inserted_id)])
  | .error e => .error ⟨500, e⟩

/-- Handler for `POST /api/orders` (main.py lines 93-99): inserts the validated order and
answers `{"id": inserted_id, "status": "received"}`; any store exception
becomes HTTP 500 with the exception's message. -/
def create_order (db : Option Store) (order : Doc) :
    Except HTTPError (Store × Doc) :=
  match create_document db "order" order with
  | .ok (st, inserted_id) =>
      .ok (st, [("id", Value.vStr inserted_id), ("status", Value.vStr "received")])
  | .error e => .error ⟨500, e⟩

/-! ## The seed handler -/

/-- The four fixed demonstration products of `seed_products`
(main.py lines 110-147). -/
def seedDocs : List Doc := [
  [("title", Value.vStr "Classic DYFN Tee"),
   ("description", Value.vStr "Premium cotton t-shirt with DYFN logo."),
   ("price", Value.vNum (24.99 : ℚ)),
   ("category", Value.vStr "tshirt"),
   ("image", Value.vStr "https://images.unsplash.com/photo-1512436991641-6745cdb1723f?q=80&w=1200&auto=format&fit=crop"),
   ("in_stock", Value.vBool true),
   ("sizes", Value.vStrList ["S", "M", "L", "XL"])],
  [("title", Value.vStr "Oversized DYFN Tee"),
   ("description", Value.vStr "Relaxed fit, ultra-soft fabric."),
   ("price", Value.vNum (29.99 : ℚ)),
   ("category", Value.vStr "tshirt"),
   ("image", Value.vStr "https://images.unsplash.com/photo-1520975916090-3105956dac38?q=80&w=1200&auto=format&fit=crop"),
   ("in_stock", Value.vBool true),
   ("sizes", Value.vStrList ["S", "M", "L", "XL"])],
  [("title", Value.vStr "DYFN Essential Hoodie"),
   ("description", Value.vStr "Midweight fleece hoodie for everyday wear."),
   ("price", Value.vNum (49.99 : ℚ)),
   ("category", Value.vStr "hoodie"),
   ("image", Value.vStr "https://images.unsplash.com/photo-1544441893-675973e31985?q=80&w=1200&auto=format&fit=crop"),
   ("in_stock", Value.vBool true),
   ("sizes", Value.vStrList ["S", "M", "L", "XL"])],
  [("title", Value.vStr "DYFN Heavyweight Hoodie"),
   ("description", Value.vStr "Thick, cozy, perfect for cold days."),
   ("price", Value.vNum (59.99 : ℚ)),
   ("category", Value.vStr "hoodie"),
   ("image", Value.vStr "https://images.unsplash.com/photo-1548883354-7622d03aca9b?q=80&w=1200&auto=format&fit=crop"),
   ("in_stock", Value.vBool true),
   ("sizes", Value.vStrList ["S", "M", "L", "XL"])]]

/-- The JSON body answered by `seed_products`: either
`{"seeded": false, "message": ...}` or `{"seeded": true, "count": ...}`. -/
structure SeedResult where
  seeded : Bool
  message : Option String
  count : Option Nat
  deriving DecidableEq, Repr

/-- Handler for `POST /api/seed` (main.py lines 101-152): raises 500 when the store
handle is absent; counts the existing product documents and answers a no-op
result when any exist; otherwise inserts the four demonstration products one
by one and answers the count inserted.  A failing store raises, caught and
surfaced as HTTP 500 with the exception's message (in this store model a
failing store fails its first round-trip, the count). -/
def seed_products (db : Option Store) : Except HTTPError (Store × SeedResult) :=
  match db with
  | none => .error ⟨500, "Database not configured"⟩
  | some st =>
      match st.failure with
      | some e => .error ⟨500, e⟩
      | none =>
          let count := st.countDocuments "product"
          if count > 0 then
            .ok (st, { seeded := false, message := some "Products already exist",
                       count := none })
          else
            let st2 := seedDocs.foldl (fun s d => s.insertOne "product" d) st
            .ok (st2, { seeded := true, message := none,
                        count := some seedDocs.length })

/-! ## The diagnostic handler -/

/-- The diagnostic object answered by `GET /test` (main.py lines 31-38):
`database_url` and `database_name` start out as Python `None`, hence their
optional type. -/
structure TestResponse where
  backend : String
  database : String
  database_url : Option String
  database_name : Option String
  connection_status : String
  collections : List String
  deriving DecidableEq, Repr

/-- Python truthiness of an `os.getenv` result: unset (`None`) and the empty
string are falsy. -/
def envTruthy : Option String → Bool
  | none => false
  | some s => !(s == "")

/-- Handler for `GET /test` (main.py lines 28-58): reports liveness, the store handle's
presence, the outcome of a collection-listing call (names capped at 10; an
error degrades to a status string carrying the message truncated to 50
characters), then unconditionally overwrites `database_url` and
`database_name` with whether the two environment variables are set.  The
model treats the pymongo attribute access `db.name` as total (`st.dbName`
is `none` when the handle lacks the attribute), so the outer exception
handler of the source has no raising operation left to catch. -/
def test_database (db : Option Store) (envUrl envName : Option String) :
    TestResponse :=
  let r0 : TestResponse :=
    { backend := "✅ Running", database := "❌ Not Available",
      database_url := none, database_name := none,
      connection_status := "Not Connected", collections := [] }
  let r1 :=
    match db with
    | some st =>
        let r :=
          { r0 with
            database := "✅ Available",
            database_url := some "✅ Configured",
            database_name := some (match st.dbName with
              | some n => n
              | none => "✅ Connected"),
            connection_status := "Connected" }
        match st.failure with
        | none =>
            { r with collections := (st.colls.map Prod.fst).take 10,
                     database := "✅ Connected & Working" }
        | some e =>
            { r with database := "⚠️  Connected but Error: " ++ e.take 50 }
    | none => { r0 with database := "⚠️  Available but not initialized" }
  { r1 with
    database_url := some (if envTruthy envUrl then "✅ Set" else "❌ Not Set"),
    database_name := some (if envTruthy envName then "✅ Set" else "❌ Not Set") }

/-- The documents `ds` prefixed with consecutive store-assigned identifiers
starting at `n`: the contents a sequence of `insert_one` calls appends. -/
def withIds : Nat → List Doc → List Doc
  | _, [] => []
  | n, d :: rest => withId n d :: withIds (n + 1) rest

/-- A concrete hoodie document used in witnesses. -/
def hoodieDoc : Doc :=
  [("title", Value.vStr "DYFN Heavyweight Hoodie"),
   ("description", Value.vStr "Thick, cozy, perfect for cold days."),
   ("category", Value.vStr "hoodie")]

/-- A one-product demonstration store used in witnesses. -/
def demoStore : Store :=
  { failure := none, dbName := some "dyfn", nextId := 1,
    colls := [("product", [withId 0 hoodieDoc])] }

/-- A three-product demonstration store used in witnesses. -/
def demoStore3 : Store :=
  { failure := none, dbName := some "dyfn", nextId := 3,
    colls := [("product",
      [withId 0 hoodieDoc, withId 1 hoodieDoc, withId 2 hoodieDoc])] }

/-- The empty store, before any seeding. -/
def emptyStore : Store :=
  { failure := none, dbName := some "dyfn", nextId := 0, colls := [] }

/-! ## Supporting lemmas -/

theorem Doc.get_erase_ne (d : Doc) (key k : String) (h : k ≠ key) :
    (d.erase key).get k = d.get k := by
  induction d with
  | nil => rfl
  | cons kv rest ih =>
      obtain ⟨k', v⟩ := kv
      by_cases hk : k' = key
      · subst hk
        have h2 : k' ≠ k := fun he => h he.symm
        simp [Doc.erase, Doc.get, h2, ih]
      · by_cases hk2 : k' = k
        · subst hk2
          simp [Doc.erase, Doc.get, hk, ih]
        · simp [Doc.erase, Doc.get, hk, hk2, ih]

theorem Doc.get_erase_self (d : Doc) (key : String) :
    (d.erase key).get key = none := by
  induction d with
  | nil => rfl
  | cons kv rest ih =>
      obtain ⟨k', v⟩ := kv
      by_cases hk : k' = key <;> simp [Doc.erase, Doc.get, hk, ih]

theorem Doc.get_set_self (d : Doc) (key : String) (v : Value) :
    (d.set key v).get key = some v := by
  induction d with
  | nil => simp [Doc.set, Doc.get]
  | cons kv rest ih =>
      obtain ⟨k', w⟩ := kv
      by_cases hk : k' = key <;> simp [Doc.set, Doc.get, hk, ih]

theorem Doc.get_set_ne (d : Doc) (key k : String) (v : Value) (h : k ≠ key) :
    (d.set key v).get k = d.get k := by
  induction d with
  | nil =>
      have h2 : key ≠ k := fun he => h he.symm
      simp [Doc.set, Doc.get, h2]
  | cons kv rest ih =>
      obtain ⟨k', w⟩ := kv
      by_cases hk : k' = key
      · subst hk
        have h2 : k' ≠ k := fun he => h he.symm
        simp [Doc.set, Doc.get, h2, ih]
      · by_cases hk2 : k' = k
        · subst hk2
          simp [Doc.set, Doc.get, hk, ih]
        · simp [Doc.set, Doc.get, hk, hk2, ih]

theorem listSubstr_nil (hay : List Char) : listSubstr [] hay = true := by
  cases hay <;> simp [listSubstr, List.isEmpty, List.isPrefixOf]

theorem strContainsCI_empty (hay : String) : strContainsCI "" hay = true := by
  have h : ("" : String).data.map Char.toLower = [] := rfl
  rw [strContainsCI, h, listSubstr_nil]

theorem Store.getColl_setColl_self (st : Store) (name : String) (docs : List Doc) :
    (st.setColl name docs).getColl name = docs := by
  show Store.getColl.getCollAux (Store.setColl.setCollAux st.colls name docs) name = docs
  induction st.colls with
  | nil => simp [Store.setColl.setCollAux, Store.getColl.getCollAux]
  | cons p rest ih =>
      obtain ⟨n, ds⟩ := p
      by_cases hn : n = name
      · subst hn
        simp [Store.setColl.setCollAux, Store.getColl.getCollAux]
      · simpa [Store.setColl.setCollAux, Store.getColl.getCollAux, hn] using ih

theorem Store.getColl_insertOne_self (st : Store) (name : String) (d : Doc) :
    (st.insertOne name d).getColl name
      = st.getColl name ++ [withId st.nextId d] := by
  show ((st.setColl name _).getColl name : List Doc) = _
  exact Store.getColl_setColl_self ..

theorem Store.nextId_insertOne (st : Store) (name : String) (d : Doc) :
    (st.insertOne name d).nextId = st.nextId + 1 := rfl

theorem convertDoc_get_ne (p : Doc) (k : String)
    (h1 : k ≠ "_id") (h2 : k ≠ "id") : (convertDoc p).get k = p.get k := by
  unfold convertDoc
  cases hid : p.get "_id" with
  | none => rfl
  | some v => rw [Doc.get_set_ne _ _ _ _ h2, Doc.get_erase_ne _ _ _ h1]

theorem fieldMatchesCI_eq_true (d : Doc) (k s : String) :
    fieldMatchesCI d k s = true
      ↔ ∃ t, d.get k = some (Value.vStr t) ∧ strContainsCI s t = true := by
  unfold fieldMatchesCI
  cases h : d.get k with
  | none => simp
  | some v => cases v <;> simp

theorem list_products_ok (st : Store) (category search : Option String)
    (limit : Nat) (docs : List Doc)
    (h : list_products (some st) category search limit = .ok docs) :
    docs = (((st.getColl "product").filter
      (matchesFilter (buildQuery category search))).take limit).map convertDoc := by
  simp only [list_products, get_documents] at h
  exact (Except.ok.inj h).symm

theorem matchesFilter_searchOr (q : MongoFilter) (d : Doc) (s : String)
    (hq : q.searchOr = some s) (h : matchesFilter q d = true) :
    (fieldMatchesCI d "title" s || fieldMatchesCI d "description" s) = true := by
  unfold matchesFilter at h
  rw [hq, Bool.and_eq_true] at h
  exact h.2

theorem buildQuery_searchOr_of_ne (category : Option String) (s : String)
    (hs : s ≠ "") : (buildQuery category (some s)).searchOr = some s := by
  simp [buildQuery, optTruthy, hs]

/-! ## Claim theorems -/

/-- Claim C6: when the store handle was never initialized (`db is None`),
`list_products` and `seed_products` fail with HTTP 500 carrying the fixed
message "Database not configured"; both guards run before any store
operation, and as both handlers are pure functions of the handle that return
no store in this case, the store is left untouched. -/
theorem uninitializedHandleRejected (category search : Option String)
    (limit : Nat) :
    list_products none category search limit
      = Except.error ⟨500, "Database not configured"⟩ ∧
    seed_products none = Except.error ⟨500, "Database not configured"⟩ :=
  ⟨rfl, rfl⟩

/-- Claim C5: `create_product` answers `{"id": ...}` with the newly assigned
identifier and `create_order` answers `{"id": ..., "status": "received"}`;
any exception of the store's create operation is caught and surfaced as HTTP
500 whose detail is the exception's own message, and no other outcome is
possible. -/
theorem createHandlersOutcomes (db : Option Store) (product order : Doc) :
    ((∃ st idText, create_product db product
        = Except.ok (st, [("id", Value.vStr idText)])) ∨
      (∃ m, create_document db "product" product = Except.error m ∧
        create_product db product = Except.error ⟨500, m⟩)) ∧
    ((∃ st idText, create_order db order
        = Except.ok (st, [("id", Value.vStr idText),
                          ("status", Value.vStr "received")])) ∨
      (∃ m, create_document db "order" order = Except.error m ∧
        create_order db order = Except.error ⟨500, m⟩)) := by
  constructor
  · cases h : create_document db "product" product with
    | ok p => exact Or.inl ⟨p.1, p.2, by simp [create_product, h]⟩
    | error m => exact Or.inr ⟨m, rfl, by simp [create_product, h]⟩
  · cases h : create_document db "order" order with
    | ok p => exact Or.inl ⟨p.1, p.2, by simp [create_order, h]⟩
    | error m => exact Or.inr ⟨m, rfl, by simp [create_order, h]⟩

/-- Claim C9: `list_products` treats an empty-string `category` exactly like
an absent one, and likewise an empty-string `search`: the built filter and
the whole handler result coincide, for every store state and limit. -/
theorem emptyParamsTreatedAsAbsent (db : Option Store)
    (category search : Option String) (limit : Nat) :
    buildQuery (some "") search = buildQuery none search ∧
    buildQuery category (some "") = buildQuery category none ∧
    list_products db (some "") search limit
      = list_products db none search limit ∧
    list_products db category (some "") limit
      = list_products db category none limit := by
  refine ⟨?_, ?_, ?_, ?_⟩ <;>
    cases db <;> simp [buildQuery, optTruthy, list_products]

/-- Claim C10: the final `database_url` and `database_name` fields of the
diagnostic response depend only on whether the `DATABASE_URL` and
`DATABASE_NAME` environment variables are set ("✅ Set" / "❌ Not Set"),
unconditionally overwriting the connection-derived values assigned to those
fields earlier in the handler, for every store state. -/
theorem envFieldsOverwriteConnectionValues (db : Option Store)
    (envUrl envName : Option String) :
    (test_database db envUrl envName).database_url
      = some (if envTruthy envUrl then "✅ Set" else "❌ Not Set") ∧
    (test_database db envUrl envName).database_name
      = some (if envTruthy envName then "✅ Set" else "❌ Not Set") :=
  ⟨rfl, rfl⟩

/-- Claim C3: for truthy `category` and `search` parameters, the filter
`list_products` builds carries both constraints, and its evaluation is the
conjunction of an exact (case-sensitive) equality test on `category` with
the disjunction of the case-insensitive matches on `title` and
`description`. -/
theorem filterConjunctionShape (c s : String) (d : Doc)
    (hc : c ≠ "") (hs : s ≠ "") :
    buildQuery (some c) (some s) = ⟨some c, some s⟩ ∧
    matchesFilter (buildQuery (some c) (some s)) d
      = ((d.get "category" == some (Value.vStr c))
         && (fieldMatchesCI d "title" s || fieldMatchesCI d "description" s)) := by
  constructor <;> simp [buildQuery, optTruthy, matchesFilter, hc, hs]

/-- Witness for C3 at concrete inputs `category="hoodie"`, `search="cozy"`
on a concrete hoodie document. -/
theorem filterConjunctionShape_witness :
    buildQuery (some "hoodie") (some "cozy") = ⟨some "hoodie", some "cozy"⟩ ∧
    matchesFilter (buildQuery (some "hoodie") (some "cozy")) hoodieDoc
      = ((hoodieDoc.get "category" == some (Value.vStr "hoodie"))
         && (fieldMatchesCI hoodieDoc "title" "cozy"
             || fieldMatchesCI hoodieDoc "description" "cozy")) :=
  filterConjunctionShape "hoodie" "cozy" hoodieDoc (by decide) (by decide)

/-- Claim C2: every record answered by `list_products` under a `search`
parameter has the search text occurring case-insensitively as a substring of
its title or of its description.  The store's evaluation of the filter is
modelled from the spec's Query Filter semantics; the statement assumes every
stored product document carries a string title (the declared Product shape),
which covers the degenerate empty search text, treated as absent by the
handler and occurring in every title. -/
theorem searchRestrictsResults (st : Store) (category : Option String)
    (s : String) (limit : Nat) (docs : List Doc) (r : Doc)
    (hwf : ∀ p ∈ st.getColl "product", ∃ t, p.get "title" = some (Value.vStr t))
    (hok : list_products (some st) category (some s) limit = .ok docs)
    (hr : r ∈ docs) :
    (∃ t, r.get "title" = some (Value.vStr t) ∧ strContainsCI s t = true) ∨
    (∃ t, r.get "description" = some (Value.vStr t) ∧ strContainsCI s t = true) := by
  have hdocs := list_products_ok st category (some s) limit docs hok
  subst hdocs
  obtain ⟨p, hp, rfl⟩ := List.mem_map.mp hr
  have hp2 : p ∈ (st.getColl "product").filter
      (matchesFilter (buildQuery category (some s))) := List.take_subset _ _ hp
  have hmem := (List.mem_filter.mp hp2).1
  have hmatch := (List.mem_filter.mp hp2).2
  by_cases hs : s = ""
  · subst hs
    obtain ⟨t, ht⟩ := hwf p hmem
    refine Or.inl ⟨t, ?_, strContainsCI_empty t⟩
    rw [convertDoc_get_ne p "title" (by decide) (by decide)]
    exact ht
  · have hor := matchesFilter_searchOr _ p s
      (buildQuery_searchOr_of_ne category s hs) hmatch
    rw [Bool.or_eq_true] at hor
    rcases hor with h1 | h2
    · obtain ⟨t, ht, hc⟩ := (fieldMatchesCI_eq_true p "title" s).mp h1
      refine Or.inl ⟨t, ?_, hc⟩
      rw [convertDoc_get_ne p "title" (by decide) (by decide)]
      exact ht
    · obtain ⟨t, ht, hc⟩ := (fieldMatchesCI_eq_true p "description" s).mp h2
      refine Or.inr ⟨t, ?_, hc⟩
      rw [convertDoc_get_ne p "description" (by decide) (by decide)]
      exact ht

/-- Witness for C2: searching "cozy" on the demonstration store returns the
converted hoodie document, whose description contains "cozy". -/
theorem searchRestrictsResults_witness :
    (∃ t, (convertDoc (withId 0 hoodieDoc)).get "title"
        = some (Value.vStr t) ∧ strContainsCI "cozy" t = true) ∨
    (∃ t, (convertDoc (withId 0 hoodieDoc)).get "description"
        = some (Value.vStr t) ∧ strContainsCI "cozy" t = true) :=
  searchRestrictsResults demoStore none "cozy" 100
    [convertDoc (withId 0 hoodieDoc)] (convertDoc (withId 0 hoodieDoc))
    (by intro p hp
        refine ⟨"DYFN Heavyweight Hoodie", ?_⟩
        have : p = withId 0 hoodieDoc := by
          simpa [demoStore, Store.getColl, Store.getColl.getCollAux] using hp
        subst this
        rfl)
    (by rfl)
    (by simp)

/-- Claim C4: every record answered by `list_products` arises from a stored
product document by the `_id`-to-`id` conversion: when the stored document
carried the store-native `_id` field, the answered record has no `_id`
field, has a text `id` field holding the identifier rendered as text, and
agrees with the stored document on every other field. -/
theorem idFieldRenamedToText (st : Store) (category search : Option String)
    (limit : Nat) (docs : List Doc) (r : Doc)
    (hok : list_products (some st) category search limit = .ok docs)
    (hr : r ∈ docs) :
    ∃ p, p ∈ st.getColl "product" ∧ r = convertDoc p ∧
      ∀ v, p.get "_id" = some v →
        r.get "_id" = none ∧
        r.get "id" = some (Value.vStr (pyStr v)) ∧
        ∀ k, k ≠ "_id" → k ≠ "id" → r.get k = p.get k := by
  have hdocs := list_products_ok st category search limit docs hok
  subst hdocs
  obtain ⟨p, hp, rfl⟩ := List.mem_map.mp hr
  have hp2 := List.take_subset _ _ hp
  have hmem := (List.mem_filter.mp hp2).1
  refine ⟨p, hmem, rfl, ?_⟩
  intro v hv
  have hcv : convertDoc p = (p.erase "_id").set "id" (Value.vStr (pyStr v)) := by
    unfold convertDoc
    rw [hv]
  rw [hcv]
  refine ⟨?_, Doc.get_set_self _ "id" _, ?_⟩
  · rw [Doc.get_set_ne _ _ _ _ (by decide)]
    exact Doc.get_erase_self p "_id"
  · intro k hk1 hk2
    rw [Doc.get_set_ne _ _ _ _ hk2, Doc.get_erase_ne _ _ _ hk1]

/-- Witness for C4 on the demonstration store. -/
theorem idFieldRenamedToText_witness :
    ∃ p, p ∈ demoStore.getColl "product" ∧
      convertDoc (withId 0 hoodieDoc) = convertDoc p ∧
      ∀ v, p.get "_id" = some v →
        (convertDoc (withId 0 hoodieDoc)).get "_id" = none ∧
        (convertDoc (withId 0 hoodieDoc)).get "id"
          = some (Value.vStr (pyStr v)) ∧
        ∀ k, k ≠ "_id" → k ≠ "id" →
          (convertDoc (withId 0 hoodieDoc)).get k = p.get k :=
  idFieldRenamedToText demoStore none none 100
    [convertDoc (withId 0 hoodieDoc)] (convertDoc (withId 0 hoodieDoc))
    (by rfl) (by simp)

/-- Claim C8: `list_products` hands the caller's `limit` to the store
unmodified and uncapped — the number of records answered is exactly the
minimum of `limit` and the number of matching stored records, for every
`limit` — and a call with `limit` absent is the call with the default
limit, 100. -/
theorem limitPassedThroughUncapped (st : Store) (category search : Option String)
    (limit : Nat) (docs : List Doc)
    (hok : list_products (some st) category search limit = .ok docs) :
    limitDefault = 100 ∧
    list_productsNoLimit (some st) category search
      = list_products (some st) category search 100 ∧
    docs.length = min limit ((st.getColl "product").filter
      (matchesFilter (buildQuery category search))).length := by
  refine ⟨rfl, rfl, ?_⟩
  have hdocs := list_products_ok st category search limit docs hok
  subst hdocs
  rw [List.length_map, List.length_take]

/-- Witness for C8: on a store holding three matching records,
`limit = 2` answers exactly two records (`min 2 3 = 2`). -/
theorem limitPassedThroughUncapped_witness :
    limitDefault = 100 ∧
    list_productsNoLimit (some demoStore3) none none
      = list_products (some demoStore3) none none 100 ∧
    ([convertDoc (withId 0 hoodieDoc),
      convertDoc (withId 1 hoodieDoc)] : List Doc).length
      = min 2 ((demoStore3.getColl "product").filter
          (matchesFilter (buildQuery none none))).length :=
  limitPassedThroughUncapped demoStore3 none none 2
    [convertDoc (withId 0 hoodieDoc), convertDoc (withId 1 hoodieDoc)]
    (by rfl)

theorem getColl_foldl_insertOne (name : String) (ds : List Doc) (st : Store) :
    ((ds.foldl (fun s d => s.insertOne name d) st).getColl name)
      = st.getColl name ++ withIds st.nextId ds := by
  induction ds generalizing st with
  | nil => simp [withIds]
  | cons d rest ih =>
      rw [List.foldl_cons, ih, Store.getColl_insertOne_self,
        Store.nextId_insertOne, withIds, List.append_assoc, List.singleton_append]

theorem length_withIds (n : Nat) (ds : List Doc) :
    (withIds n ds).length = ds.length := by
  induction ds generalizing n with
  | nil => rfl
  | cons d rest ih => simp [withIds, ih]

theorem Doc.get_withId_ne (n : Nat) (d : Doc) (k : String) (h : k ≠ "_id") :
    (withId n d).get k = d.get k := by
  have h2 : "_id" ≠ k := fun he => h he.symm
  simp [withId, Doc.get, h2]

theorem countP_category_withIds (n : Nat) (ds : List Doc) (c : String) :
    (withIds n ds).countP (fun d => d.get "category" == some (Value.vStr c))
      = ds.countP (fun d => d.get "category" == some (Value.vStr c)) := by
  induction ds generalizing n with
  | nil => rfl
  | cons d rest ih =>
      have hget : (withId n d).get "category" = d.get "category" :=
        Doc.get_withId_ne n d "category" (by decide)
      simp [withIds, List.countP_cons, hget, ih]

/-- Claim C1: on a store whose product collection is empty, `seed_products`
inserts exactly four product records — two with category "tshirt" and two
with category "hoodie" — and answers `seeded=true` with count 4; on a store
already holding at least one product record it inserts nothing, answers
`seeded=false`, and leaves the store unchanged. -/
theorem seedGuardAndInsertion (st : Store) (hf : st.failure = none) :
    (st.getColl "product" = [] →
      ∃ st2, seed_products (some st) = Except.ok (st2, ⟨true, none, some 4⟩) ∧
        (st2.getColl "product").length = 4 ∧
        (st2.getColl "product").countP
          (fun d => d.get "category" == some (Value.vStr "tshirt")) = 2 ∧
        (st2.getColl "product").countP
          (fun d => d.get "category" == some (Value.vStr "hoodie")) = 2) ∧
    (st.getColl "product" ≠ [] →
      seed_products (some st)
        = Except.ok (st, ⟨false, some "Products already exist", none⟩)) := by
  constructor
  · intro h
    refine ⟨seedDocs.foldl (fun s d => s.insertOne "product" d) st, ?_, ?_, ?_, ?_⟩
    · simp [seed_products, hf, Store.countDocuments, h]
      rfl
    · rw [getColl_foldl_insertOne, h, List.nil_append, length_withIds]
      rfl
    · rw [getColl_foldl_insertOne, h, List.nil_append, countP_category_withIds]
      decide
    · rw [getColl_foldl_insertOne, h, List.nil_append, countP_category_withIds]
      decide
  · intro h
    have hlen : 0 < (st.getColl "product").length := List.length_pos.mpr h
    simp [seed_products, hf, Store.countDocuments, hlen]

/-- Witness for C1 on the empty store. -/
theorem seedGuardAndInsertion_witness :
    ∃ st2, seed_products (some emptyStore)
        = Except.ok (st2, ⟨true, none, some 4⟩) ∧
      (st2.getColl "product").length = 4 ∧
      (st2.getColl "product").countP
        (fun d => d.get "category" == some (Value.vStr "tshirt")) = 2 ∧
      (st2.getColl "product").countP
        (fun d => d.get "category" == some (Value.vStr "hoodie")) = 2 :=
  (seedGuardAndInsertion emptyStore rfl).1 rfl

/-- Claim C7: the diagnostic handler is a pure total function of the store
state and environment — no store state makes it raise, and it answers a
store handle's absence, a failing collection listing (status string carrying
the message truncated to 50 characters), and a working store with
descriptive status strings; its collections field holds at most 10 names. -/
theorem diagnosticNeverRaises (db : Option Store) (envUrl envName : Option String) :
    (test_database db envUrl envName).collections.length ≤ 10 ∧
    (test_database db envUrl envName).backend = "✅ Running" ∧
    (db = none →
      (test_database db envUrl envName).database
        = "⚠️  Available but not initialized") ∧
    (∀ st, db = some st → st.failure = none →
      (test_database db envUrl envName).database = "✅ Connected & Working" ∧
      (test_database db envUrl envName).collections
        = (st.colls.map Prod.fst).take 10) ∧
    (∀ st e, db = some st → st.failure = some e →
      (test_database db envUrl envName).database
        = "⚠️  Connected but Error: " ++ e.take 50 ∧
      (test_database db envUrl envName).collections = []) := by
  cases db with
  | none =>
      refine ⟨by simp [test_database], rfl, fun _ => rfl, ?_, ?_⟩
      · intro st hst
        exact absurd hst (by simp)
      · intro st e hst
        exact absurd hst (by simp)
  | some st =>
      cases hf : st.failure with
      | none =>
          refine ⟨?_, ?_, ?_, ?_, ?_⟩
          · simp [test_database, hf, List.length_take]
          · simp [test_database, hf]
          · intro h
            exact nomatch h
          · intro st' hst' hf'
            injection hst' with hst2
            subst hst2
            constructor <;> simp [test_database, hf]
          · intro st' e hst' hf'
            injection hst' with hst2
            subst hst2
            simp [hf] at hf'
      | some e =>
          refine ⟨?_, ?_, ?_, ?_, ?_⟩
          · simp [test_database, hf]
          · simp [test_database, hf]
          · intro h
            exact nomatch h
          · intro st' hst' hf'
            injection hst' with hst2
            subst hst2
            simp [hf] at hf'
          · intro st' e' hst' hf'
            injection hst' with hst2
            subst hst2
            rw [hf] at hf'
            injection hf' with he
            subst he
            constructor <;> simp [test_database, hf]

/-- Witness for C7: the handler's answers at a concrete absent handle and at
a concrete store whose collection listing fails with message "boom". -/
theorem diagnosticNeverRaises_witness :
    ((test_database none none none).database
        = "⚠️  Available but not initialized") ∧
    ((test_database (some ⟨some "boom", some "dyfn", 0, []⟩) none none).database
        = "⚠️  Connected but Error: " ++ ("boom" : String).take 50 ∧
      (test_database (some ⟨some "boom", some "dyfn", 0, []⟩) none none).collections
        = []) :=
  ⟨(diagnosticNeverRaises none none none).2.2.1 rfl,
   (diagnosticNeverRaises (some ⟨some "boom", some "dyfn", 0, []⟩) none none).2.2.2.2
     ⟨some "boom", some "dyfn", 0, []⟩ "boom" rfl rfl⟩

end Dyfn
